import Mathlib

/-!
Verification of the ruggles artwork-evaluation repository.

The definitions below are a shallow embedding of the repository's code:
  * `src/utils/db.py` — `insert_artwork` (flatten) and `get_artwork_by_id`
    (unflatten) between a nested `evaluation_data` mapping and the wide
    database row;
  * `src/streamlit_app.py` — `adjust_score_on_curve`, the tab-1 fresh
    evaluation average and the tab-2 stored-artwork average;
  * `src/evaluate_images.py` — the structured-output JSON schema built in
    `evaluate_image`, the per-row flattening loop and average computations
    of `save_to_csv`, the artwork limit of `evaluate_all_images`, and the
    cascading fallback chain of the CSV writer.

Python ints are embedded as `Int`, Python float division as exact division
in `ℚ`, dictionaries with a fixed key set as structures of `Option` fields,
and code that can raise as `Except`-valued functions.
-/

namespace Ruggles

/-- The eight known evaluation-criterion keys of the rubric configuration. -/
inductive Criterion where
  | proportion_and_structure
  | line_quality
  | value_and_light
  | detail_and_texture
  | composition_and_perspective
  | form_and_volume
  | mood_and_expression
  | overall_realism
deriving DecidableEq, Repr

/-- One criterion's evaluation: `{score, rationale, improvement_tips}`. -/
structure CriterionResult where
  score : Int
  rationale : String
  improvement_tips : List String
deriving DecidableEq, Repr

/-- The zero-value default used by `insert_artwork` / `get_artwork_by_id`
for an absent criterion: `get('score', 0)`, `get('rationale', '')`,
`get('improvement_tips', [])`. -/
def zeroResult : CriterionResult := ⟨0, "", []⟩

/-- The nested `evaluation_data` dictionary: each known criterion key is
either present (mapped to a `CriterionResult`) or absent. -/
structure EvaluationData where
  proportion_and_structure : Option CriterionResult
  line_quality : Option CriterionResult
  value_and_light : Option CriterionResult
  detail_and_texture : Option CriterionResult
  composition_and_perspective : Option CriterionResult
  form_and_volume : Option CriterionResult
  mood_and_expression : Option CriterionResult
  overall_realism : Option CriterionResult
deriving DecidableEq, Repr

/-- Dictionary lookup `evaluation_data.get(key)`. -/
def EvaluationData.get (d : EvaluationData) : Criterion → Option CriterionResult
  | .proportion_and_structure => d.proportion_and_structure
  | .line_quality => d.line_quality
  | .value_and_light => d.value_and_light
  | .detail_and_texture => d.detail_and_texture
  | .composition_and_perspective => d.composition_and_perspective
  | .form_and_volume => d.form_and_volume
  | .mood_and_expression => d.mood_and_expression
  | .overall_realism => d.overall_realism

/-- The empty `evaluation_data` dictionary (no criterion present). -/
def EvaluationData.empty : EvaluationData :=
  ⟨none, none, none, none, none, none, none, none⟩

/-- All eight known criterion keys, in rubric order. -/
def allCriteria : List Criterion :=
  [.proportion_and_structure, .line_quality, .value_and_light,
   .detail_and_texture, .composition_and_perspective, .form_and_volume,
   .mood_and_expression, .overall_realism]

/-- The quick-sketch rubric: the four criteria evaluated in quick sketch
mode. -/
def quickSketchCriteria : List Criterion :=
  [.proportion_and_structure, .line_quality, .form_and_volume,
   .mood_and_expression]

/-- The full-realism rubric: all eight criteria. -/
def fullRealismCriteria : List Criterion := allCriteria

/-- `d`'s present criteria are a subset of the given rubric (a decidable
Bool computation, used to state the round-trip claims). -/
def subsetOfRubric (d : EvaluationData) (rubric : List Criterion) : Bool :=
  allCriteria.all fun c => !(d.get c).isSome || rubric.contains c

/-- `d`'s present criteria are exactly the given rubric's criteria. -/
def presentExactly (d : EvaluationData) (rubric : List Criterion) : Prop :=
  ∀ c ∈ allCriteria, ((d.get c).isSome ↔ c ∈ rubric)

/-- An evaluation record as handled by `insert_artwork`: the validated
sketch type together with the nested `evaluation_data`. -/
structure EvaluationRecord where
  sketch_type : String
  evaluation_data : EvaluationData
deriving DecidableEq, Repr

/-- The wide database row shape written by `insert_artwork`: one optional
column group (`{key}_score`, `{key}_rationale`, `{key}_tips`) per known
criterion, plus the `sketch_type` column. A group is `none` when its
columns are not in the row. -/
structure WideRow where
  sketch_type : String
  proportion : Option CriterionResult
  line_quality : Option CriterionResult
  value_light : Option CriterionResult
  detail_texture : Option CriterionResult
  composition_perspective : Option CriterionResult
  form_volume : Option CriterionResult
  mood_expression : Option CriterionResult
  overall_realism : Option CriterionResult
deriving DecidableEq, Repr

/-- Sketch-type validation performed by `insert_artwork`: any value other
than the two known modes falls back to `"full realism"`. -/
def validateSketchType (st : String) : String :=
  if st = "quick sketch" ∨ st = "full realism" then st else "full realism"

/-- `evaluation_data.get(key, {}).get(field, default)`: an absent criterion
contributes the zero-value defaults. -/
def fillDefaults (c : Option CriterionResult) : CriterionResult :=
  c.getD zeroResult

/-- The flatten direction of the persistence mapping, from `insert_artwork`
(src/utils/db.py lines 52-149): the four shared criteria always get their
column group (with zero defaults when absent from `evaluation_data`); the
four full-realism criteria get their column group only when the validated
sketch type is `"full realism"`. -/
def flattenRecord (r : EvaluationRecord) : WideRow :=
  let st := validateSketchType r.sketch_type
  let d := r.evaluation_data
  { sketch_type := st
    proportion := some (fillDefaults d.proportion_and_structure)
    line_quality := some (fillDefaults d.line_quality)
    value_light :=
      if st = "full realism" then some (fillDefaults d.value_and_light) else none
    detail_texture :=
      if st = "full realism" then some (fillDefaults d.detail_and_texture) else none
    composition_perspective :=
      if st = "full realism" then some (fillDefaults d.composition_and_perspective) else none
    form_volume := some (fillDefaults d.form_and_volume)
    mood_expression := some (fillDefaults d.mood_and_expression)
    overall_realism :=
      if st = "full realism" then some (fillDefaults d.overall_realism) else none }

/-- The unflatten direction of the persistence mapping, from
`get_artwork_by_id` (src/utils/db.py lines 151-222): `proportion` and
`line_quality` are reconstructed unconditionally (popping with zero
defaults when their columns are missing); the other six criteria are
reconstructed only when their `{key}_score` column is present in the row. -/
def unflattenRow (row : WideRow) : EvaluationRecord :=
  { sketch_type := row.sketch_type
    evaluation_data :=
    { proportion_and_structure := some (fillDefaults row.proportion)
      line_quality := some (fillDefaults row.line_quality)
      value_and_light := row.value_light
      detail_and_texture := row.detail_texture
      composition_and_perspective := row.composition_perspective
      form_and_volume := row.form_volume
      mood_and_expression := row.mood_expression
      overall_realism := row.overall_realism } }

end Ruggles

namespace Ruggles

/-- A full-realism record whose criteria are a proper subset of the
full-realism rubric (and not a subset of the quick-sketch rubric). -/
def cexRecord : EvaluationRecord :=
  { sketch_type := "full realism"
    evaluation_data :=
    { EvaluationData.empty with
      proportion_and_structure := some ⟨5, "ok", ["t"]⟩
      value_and_light := some ⟨7, "fine", []⟩ } }

/-- C1 (counterexample): a record whose present criteria
`{proportion_and_structure, value_and_light}` are a subset of exactly one
rubric's criteria (they are a subset of the full-realism eight and not of
the quick-sketch four) is not reconstructed exactly by un-flattening its
flattened row: `insert_artwork` writes zero-default columns for every
criterion of the mode's rubric, and `get_artwork_by_id` turns those into
zero-filled criterion results that were absent from the original record. -/
theorem C1_roundtrip_counterexample :
    subsetOfRubric cexRecord.evaluation_data fullRealismCriteria = true ∧
    subsetOfRubric cexRecord.evaluation_data quickSketchCriteria = false ∧
    unflattenRow (flattenRecord cexRecord) ≠ cexRecord := by
  refine ⟨by decide, by decide, ?_⟩
  intro h
  have h2 := congrArg (fun r => (r.evaluation_data.get .line_quality).isSome) h
  simp [cexRecord, flattenRecord, unflattenRow, EvaluationData.empty,
    EvaluationData.get, fillDefaults, validateSketchType] at h2

/-- C1 (amended): the round-trip law `unflatten (flatten r) = r` holds for
every record whose sketch type is one of the two valid modes and whose
present criteria are exactly that mode's rubric criteria — the quick-sketch
four for `"quick sketch"`, all eight for `"full realism"`. -/
theorem C1_roundtrip_exact_rubric (r : EvaluationRecord)
    (h : (r.sketch_type = "quick sketch" ∧
            presentExactly r.evaluation_data quickSketchCriteria) ∨
         (r.sketch_type = "full realism" ∧
            presentExactly r.evaluation_data fullRealismCriteria)) :
    unflattenRow (flattenRecord r) = r := by
  obtain ⟨st, d⟩ := r
  obtain ⟨o1, o2, o3, o4, o5, o6, o7, o8⟩ := d
  rcases h with ⟨hst, hp⟩ | ⟨hst, hp⟩ <;> subst hst
  · have h1 := (hp .proportion_and_structure (by decide)).mpr (by decide)
    have h2 := (hp .line_quality (by decide)).mpr (by decide)
    have h6 := (hp .form_and_volume (by decide)).mpr (by decide)
    have h7 := (hp .mood_and_expression (by decide)).mpr (by decide)
    have h3 : o3 = none := by
      have := (hp .value_and_light (by decide))
      simp [EvaluationData.get, quickSketchCriteria] at this
      exact Option.not_isSome_iff_eq_none.mp (by simpa using this)
    have h4 : o4 = none := by
      have := (hp .detail_and_texture (by decide))
      simp [EvaluationData.get, quickSketchCriteria] at this
      exact Option.not_isSome_iff_eq_none.mp (by simpa using this)
    have h5 : o5 = none := by
      have := (hp .composition_and_perspective (by decide))
      simp [EvaluationData.get, quickSketchCriteria] at this
      exact Option.not_isSome_iff_eq_none.mp (by simpa using this)
    have h8 : o8 = none := by
      have := (hp .overall_realism (by decide))
      simp [EvaluationData.get, quickSketchCriteria] at this
      exact Option.not_isSome_iff_eq_none.mp (by simpa using this)
    simp only [EvaluationData.get] at h1 h2 h6 h7
    obtain ⟨a1, ha1⟩ := Option.isSome_iff_exists.mp h1
    obtain ⟨a2, ha2⟩ := Option.isSome_iff_exists.mp h2
    obtain ⟨a6, ha6⟩ := Option.isSome_iff_exists.mp h6
    obtain ⟨a7, ha7⟩ := Option.isSome_iff_exists.mp h7
    subst ha1 ha2 ha6 ha7 h3 h4 h5 h8
    rfl
  · have h1 := (hp .proportion_and_structure (by decide)).mpr (by decide)
    have h2 := (hp .line_quality (by decide)).mpr (by decide)
    have h3 := (hp .value_and_light (by decide)).mpr (by decide)
    have h4 := (hp .detail_and_texture (by decide)).mpr (by decide)
    have h5 := (hp .composition_and_perspective (by decide)).mpr (by decide)
    have h6 := (hp .form_and_volume (by decide)).mpr (by decide)
    have h7 := (hp .mood_and_expression (by decide)).mpr (by decide)
    have h8 := (hp .overall_realism (by decide)).mpr (by decide)
    simp only [EvaluationData.get] at h1 h2 h3 h4 h5 h6 h7 h8
    obtain ⟨a1, ha1⟩ := Option.isSome_iff_exists.mp h1
    obtain ⟨a2, ha2⟩ := Option.isSome_iff_exists.mp h2
    obtain ⟨a3, ha3⟩ := Option.isSome_iff_exists.mp h3
    obtain ⟨a4, ha4⟩ := Option.isSome_iff_exists.mp h4
    obtain ⟨a5, ha5⟩ := Option.isSome_iff_exists.mp h5
    obtain ⟨a6, ha6⟩ := Option.isSome_iff_exists.mp h6
    obtain ⟨a7, ha7⟩ := Option.isSome_iff_exists.mp h7
    obtain ⟨a8, ha8⟩ := Option.isSome_iff_exists.mp h8
    subst ha1 ha2 ha3 ha4 ha5 ha6 ha7 ha8
    rfl

/-- A quick-sketch record carrying exactly the quick-sketch rubric's
criteria, used as the concrete witness input. -/
def quickRecordEx : EvaluationRecord :=
  { sketch_type := "quick sketch"
    evaluation_data :=
    { EvaluationData.empty with
      proportion_and_structure := some ⟨16, "a", ["x"]⟩
      line_quality := some ⟨16, "b", []⟩
      form_and_volume := some ⟨4, "c", []⟩
      mood_and_expression := some ⟨4, "d", ["y", "z"]⟩ } }

/-- C1 witness: the round-trip theorem applied to a concrete quick-sketch
record with exactly the quick-sketch criteria. -/
theorem C1_roundtrip_witness :
    unflattenRow (flattenRecord quickRecordEx) = quickRecordEx :=
  C1_roundtrip_exact_rubric quickRecordEx
    (Or.inl ⟨rfl, by intro c hc; cases c <;> decide⟩)

end Ruggles

namespace Ruggles

/-- The score curve from `adjust_score_on_curve` (src/streamlit_app.py
lines 21-30): `10` when the raw score is at least `16`, otherwise
`max 0 (raw_score - 6)`. Defined over `ℚ` because the app applies it both
to integer criterion scores and to rational averages. -/
def adjust_score_on_curve (raw_score : ℚ) : ℚ :=
  if raw_score ≥ 16 then 10 else max 0 (raw_score - 6)

/-- The spec's parametric curve: `10` for scores at or above `tHigh`,
otherwise `max 0 (s - tLow)`. Written from the spec's words to compare the
source function against candidate constant pairs. -/
def curveSpec (tHigh tLow s : ℚ) : ℚ :=
  if s ≥ tHigh then 10 else max 0 (s - tLow)

/-- The curve applied to averages inside `save_to_csv`
(src/evaluate_images.py lines 658-663 and 669-674): thresholds `18` and
`8`, the legacy constant pair. -/
def csvAvgCurve (avg : ℚ) : ℚ :=
  if avg ≥ 18 then 10 else max 0 (avg - 8)

/-- C2: the per-criterion curve function `adjust_score_on_curve` equals the
spec curve with constants `T_high = 16`, `T_low = 6` at every raw score; in
particular it maps `16` to `10` and `15` to `9`, unlike the legacy
`(18, 8)` constants, which map `16` to `8`. -/
theorem C2_curve_constants :
    (∀ s : ℚ, adjust_score_on_curve s = curveSpec 16 6 s) ∧
    adjust_score_on_curve 16 = 10 ∧ adjust_score_on_curve 15 = 9 ∧
    curveSpec 18 8 16 = 8 := by
  refine ⟨fun s => rfl, ?_, ?_, ?_⟩ <;>
    norm_num [adjust_score_on_curve, curveSpec]

/-- C9: on the valid raw-score interval `[1, 20]` the curve is bounded in
`[0, 10]` and monotonically non-decreasing. -/
theorem C9_curve_bounded_monotone :
    (∀ s : ℚ, 1 ≤ s → s ≤ 20 →
      0 ≤ adjust_score_on_curve s ∧ adjust_score_on_curve s ≤ 10) ∧
    (∀ s t : ℚ, 1 ≤ s → s ≤ 20 → 1 ≤ t → t ≤ 20 → s ≤ t →
      adjust_score_on_curve s ≤ adjust_score_on_curve t) := by
  constructor
  · intro s _ _
    unfold adjust_score_on_curve
    split_ifs with h
    · norm_num
    · push_neg at h
      exact ⟨le_max_left 0 _, max_le (by norm_num) (by linarith)⟩
  · intro s t _ _ _ _ hst
    unfold adjust_score_on_curve
    split_ifs with h1 h2 h2
    · exact le_rfl
    · exact absurd (le_trans h1 hst) h2
    · push_neg at h1
      exact max_le (by norm_num) (by linarith)
    · exact max_le_max le_rfl (by linarith)

/-- C9 witness: bounds at `s = 3` and monotonicity at `s = 3 ≤ t = 17`. -/
theorem C9_curve_witness :
    (0 ≤ adjust_score_on_curve 3 ∧ adjust_score_on_curve 3 ≤ 10) ∧
    adjust_score_on_curve 3 ≤ adjust_score_on_curve 17 :=
  ⟨C9_curve_bounded_monotone.1 3 (by norm_num) (by norm_num),
   C9_curve_bounded_monotone.2 3 17 (by norm_num) (by norm_num)
     (by norm_num) (by norm_num) (by norm_num)⟩

/-- The score read by tab 1 for one criterion: the response dictionaries
are accessed directly (`ps_data['score']`), presence being guaranteed by
the strict response schema; an absent entry is totalised with the zero
default. -/
def criterionScore (o : Option CriterionResult) : Int :=
  (fillDefaults o).score

/-- The scores list assembled by tab 1 of the app for a fresh evaluation
(src/streamlit_app.py lines 489-503): the two core criteria, then three
full-realism criteria when in full realism mode, then form/volume and
mood/expression, then overall realism in full realism mode. -/
def tab1Scores (sketch_type : String) (d : EvaluationData) : List Int :=
  [criterionScore d.proportion_and_structure, criterionScore d.line_quality]
  ++ (if sketch_type = "full realism" then
        [criterionScore d.value_and_light, criterionScore d.detail_and_texture,
         criterionScore d.composition_and_perspective]
      else [])
  ++ [criterionScore d.form_and_volume, criterionScore d.mood_and_expression]
  ++ (if sketch_type = "full realism" then [criterionScore d.overall_realism]
      else [])

/-- Exact arithmetic mean of a list of integer scores, in `ℚ` (Python's
`sum(scores) / len(scores)` with float division, modelled exactly). -/
def intListMean (l : List Int) : ℚ :=
  (l.map (fun i => (i : ℚ))).sum / l.length

/-- `avg_score = sum(scores) / len(scores)` in tab 1 (line 505). -/
def tab1AvgScore (sketch_type : String) (d : EvaluationData) : ℚ :=
  intListMean (tab1Scores sketch_type d)

/-- `curved_avg_score = adjust_score_on_curve(avg_score)` in tab 1
(line 506). -/
def tab1CurvedAvg (sketch_type : String) (d : EvaluationData) : ℚ :=
  adjust_score_on_curve (tab1AvgScore sketch_type d)

/-- The alternative aggregation the spec rules out, written from the spec's
words: the mean of the per-criterion curved scores. -/
def meanOfCurved (l : List Int) : ℚ :=
  (l.map (fun i => adjust_score_on_curve (i : ℚ))).sum / l.length

/-- The contribution of one optional criterion to tab 2's scores list:
`if key in evaluation_data: scores.append(...['score'])`. -/
def optScores (o : Option CriterionResult) : List Int :=
  match o with
  | some r => [r.score]
  | none => []

/-- The scores list assembled by tab 2 for a stored artwork
(src/streamlit_app.py lines 801-823): the four core criteria when present,
then the four full-realism criteria when present and the artwork's sketch
type is full realism. -/
def tab2Scores (sketch_type : String) (d : EvaluationData) : List Int :=
  optScores d.proportion_and_structure ++ optScores d.line_quality
  ++ optScores d.form_and_volume ++ optScores d.mood_and_expression
  ++ (if sketch_type = "full realism" then
        optScores d.value_and_light ++ optScores d.detail_and_texture
        ++ optScores d.composition_and_perspective
        ++ optScores d.overall_realism
      else [])

/-- Tab 2's average raw score: computed only under `if scores:`
(src/streamlit_app.py lines 734-737 and 937-940); `none` when the scores
list is empty. -/
def tab2AvgScore (sketch_type : String) (d : EvaluationData) : Option ℚ :=
  if (tab2Scores sketch_type d).isEmpty then none
  else some (intListMean (tab2Scores sketch_type d))

/-- Tab 2's curved average, computed inside the same `if scores:` block. -/
def tab2CurvedAvg (sketch_type : String) (d : EvaluationData) : Option ℚ :=
  (tab2AvgScore sketch_type d).map adjust_score_on_curve

end Ruggles

namespace Ruggles

/-- The presence-relevant part of one criterion object in the structured
output schema: its required sub-fields and its `additionalProperties`
flag. Every criterion object in the source carries
`required = [score, rationale, improvement_tips]` and
`additionalProperties: False`. -/
structure PropertySchema where
  required : List String
  additionalProperties : Bool
deriving DecidableEq, Repr

/-- The criterion object schema repeated for every criterion in
`evaluate_image`. -/
def criterionObjectSchema : PropertySchema :=
  { required := ["score", "rationale", "improvement_tips"]
    additionalProperties := false }

/-- The top level of the structured output schema: the criterion object
properties (the `generated_title` string property is kept separately in
`required`), the required top-level field names, and the top-level
`additionalProperties` flag. -/
structure EvalSchema where
  criterionProperties : List (String × PropertySchema)
  required : List String
  additionalProperties : Bool
deriving DecidableEq, Repr

/-- The structured-output JSON schema built by `evaluate_image`
(src/evaluate_images.py lines 288-486; the identical literal appears in
src/streamlit_app.py lines 162-360): the base schema carries the four
quick-sketch criteria and requires them plus `generated_title`; for full
realism mode the four additional criterion objects are added and the
required list is replaced by all eight criteria plus `generated_title`. -/
def buildSchema (sketch_type : String) : EvalSchema :=
  let base : EvalSchema :=
    { criterionProperties :=
        [("proportion_and_structure", criterionObjectSchema),
         ("line_quality", criterionObjectSchema),
         ("form_and_volume", criterionObjectSchema),
         ("mood_and_expression", criterionObjectSchema)]
      required := ["generated_title", "proportion_and_structure",
                   "line_quality", "form_and_volume", "mood_and_expression"]
      additionalProperties := false }
  if sketch_type = "full realism" then
    { criterionProperties := base.criterionProperties ++
        [("value_and_light", criterionObjectSchema),
         ("detail_and_texture", criterionObjectSchema),
         ("composition_and_perspective", criterionObjectSchema),
         ("overall_realism", criterionObjectSchema)]
      required := ["generated_title", "proportion_and_structure",
                   "line_quality", "value_and_light", "detail_and_texture",
                   "composition_and_perspective", "form_and_volume",
                   "mood_and_expression", "overall_realism"]
      additionalProperties := false }
  else base

/-- C4: in quick sketch mode the schema's required top-level fields are
exactly `generated_title` plus the four quick-sketch criteria; in full
realism mode they are `generated_title` plus all eight criteria; in both
modes `additionalProperties` is `false` at the top level and in every
criterion object. -/
theorem C4_schema_required_fields :
    (buildSchema "quick sketch").required =
      ["generated_title", "proportion_and_structure", "line_quality",
       "form_and_volume", "mood_and_expression"] ∧
    (buildSchema "full realism").required =
      ["generated_title", "proportion_and_structure", "line_quality",
       "value_and_light", "detail_and_texture", "composition_and_perspective",
       "form_and_volume", "mood_and_expression", "overall_realism"] ∧
    (buildSchema "quick sketch").additionalProperties = false ∧
    (buildSchema "full realism").additionalProperties = false ∧
    ((buildSchema "quick sketch").criterionProperties.all
      (fun p => p.2.additionalProperties == false)) = true ∧
    ((buildSchema "full realism").criterionProperties.all
      (fun p => p.2.additionalProperties == false)) = true :=
  ⟨rfl, rfl, rfl, rfl, rfl, rfl⟩

end Ruggles

namespace Ruggles

/-- Enumeration instance for the eight criterion keys (used to decide
universally quantified facts over criteria). -/
instance : Fintype Criterion where
  elems := ⟨(allCriteria : List Criterion), by decide⟩
  complete := by intro c; cases c <;> decide

/-- The mutable state of the per-row criteria loop in `save_to_csv`
(src/evaluate_images.py lines 620-651): the Python local `new_score`
(`none` while still unassigned), the accumulating `new_scores` and
`existing_scores` lists, and the emitted per-criterion score and diff
columns. -/
structure CsvLoopState where
  lastNewScore : Option Int
  newScores : List Int
  existingScores : List Int
  newCols : List (Criterion × Int)
  existingCols : List (Criterion × Int)
  diffCols : List (Criterion × Int)
deriving DecidableEq, Repr

/-- The loop state before the first iteration. -/
def initCsvState : CsvLoopState := ⟨none, [], [], [], [], []⟩

/-- The `if criteria in new_evaluation:` block of one loop iteration:
assigns `new_score`, emits the `new_{criteria}_score` column, and appends
the score to `new_scores` only when it is truthy (non-zero). -/
def csvStepNew (ne : EvaluationData) (s : CsvLoopState) (c : Criterion) :
    CsvLoopState :=
  match ne.get c with
  | some r =>
      { s with lastNewScore := some r.score
               newCols := s.newCols ++ [(c, r.score)]
               newScores := s.newScores ++
                 (if r.score ≠ 0 then [r.score] else []) }
  | none => s

/-- The `if criteria in existing_evaluation:` block of one loop iteration:
emits the `existing_{criteria}_score` column, appends a truthy score to
`existing_scores`, and evaluates `if new_score and existing_score:` — which
reads the Python local `new_score` (raising `UnboundLocalError` when it was
never assigned, modelled as the `Except` error) and emits the
`{criteria}_score_diff` column when both values are truthy. -/
def csvStepExisting (ee : EvaluationData) (s : CsvLoopState) (c : Criterion) :
    Except String CsvLoopState :=
  match ee.get c with
  | none => .ok s
  | some r =>
      let s2 := { s with
        existingCols := s.existingCols ++ [(c, r.score)]
        existingScores := s.existingScores ++
          (if r.score ≠ 0 then [r.score] else []) }
      match s2.lastNewScore with
      | none => .error "UnboundLocalError: new_score"
      | some n =>
          .ok (if n ≠ 0 ∧ r.score ≠ 0
               then { s2 with diffCols := s2.diffCols ++ [(c, n - r.score)] }
               else s2)

/-- One full iteration of the `for criteria in criteria_fields:` loop. -/
def csvStep (ne ee : EvaluationData) (s : CsvLoopState) (c : Criterion) :
    Except String CsvLoopState :=
  csvStepExisting ee (csvStepNew ne s c) c

/-- The whole criteria loop of `save_to_csv`, iterated left to right. -/
def csvLoop (ne ee : EvaluationData) :
    List Criterion → CsvLoopState → Except String CsvLoopState
  | [], s => .ok s
  | c :: cs, s =>
      match csvStep ne ee s c with
      | .error e => .error e
      | .ok s' => csvLoop ne ee cs s'

/-- `criteria_fields` for one row (src/evaluate_images.py lines 613-618):
the four shared criteria, extended by the four full-realism criteria when
the evaluator's sketch type or the row's sketch type is full realism. -/
def csvCriteriaFields (selfSketchType rowSketchType : String) :
    List Criterion :=
  [.proportion_and_structure, .line_quality, .form_and_volume,
   .mood_and_expression]
  ++ (if selfSketchType = "full realism" ∨ rowSketchType = "full realism"
      then [.value_and_light, .detail_and_texture,
            .composition_and_perspective, .overall_realism]
      else [])

/-- The aggregate outputs of one CSV row: the final loop state and the
optional average columns (`none` models the column not being written). -/
structure CsvRowAgg where
  loopState : CsvLoopState
  existingAvgRaw : Option ℚ
  existingAvgCurved : Option ℚ
  newAvgRaw : Option ℚ
  newAvgCurved : Option ℚ
  avgScoreDiff : Option ℚ
  avgCurvedDiff : Option ℚ
deriving DecidableEq, Repr

/-- The per-row computation of `save_to_csv` (src/evaluate_images.py lines
595-679): run the criteria loop, then emit the average columns — each only
under its `if existing_scores:` / `if new_scores:` guard, the diffs only
when both lists are non-empty — applying the average curve with the
thresholds `18` and `8` written inline there. -/
def processRow (selfSketchType rowSketchType : String)
    (ne ee : EvaluationData) : Except String CsvRowAgg :=
  match csvLoop ne ee (csvCriteriaFields selfSketchType rowSketchType)
      initCsvState with
  | .error e => .error e
  | .ok s =>
      let eAvg : Option ℚ :=
        if s.existingScores.isEmpty then none
        else some (intListMean s.existingScores)
      let nAvg : Option ℚ :=
        if s.newScores.isEmpty then none
        else some (intListMean s.newScores)
      .ok { loopState := s
            existingAvgRaw := eAvg
            existingAvgCurved := eAvg.map csvAvgCurve
            newAvgRaw := nAvg
            newAvgCurved := nAvg.map csvAvgCurve
            avgScoreDiff :=
              match nAvg, eAvg with
              | some n, some e => some (n - e)
              | _, _ => none
            avgCurvedDiff :=
              match nAvg, eAvg with
              | some n, some e => some (csvAvgCurve n - csvAvgCurve e)
              | _, _ => none }

/-- What one criterion contributes to the `new_scores` list: its score if
present and truthy, nothing otherwise. -/
def newContribution (ne : EvaluationData) (c : Criterion) : List Int :=
  match ne.get c with
  | some r => if r.score ≠ 0 then [r.score] else []
  | none => []

/-- What one criterion contributes to the `existing_scores` list. -/
def existingContribution (ee : EvaluationData) (c : Criterion) : List Int :=
  match ee.get c with
  | some r => if r.score ≠ 0 then [r.score] else []
  | none => []

/-- The scores of the criteria actually present in `d`, in field order. -/
def presentScores (d : EvaluationData) (fs : List Criterion) : List Int :=
  (fs.map (fun c => optScores (d.get c))).flatten

end Ruggles

namespace Ruggles

lemma csvStepNew_newScores (ne : EvaluationData) (s : CsvLoopState)
    (c : Criterion) :
    (csvStepNew ne s c).newScores = s.newScores ++ newContribution ne c := by
  cases h : ne.get c <;> simp [csvStepNew, newContribution, h]

lemma csvStepNew_existingScores (ne : EvaluationData) (s : CsvLoopState)
    (c : Criterion) :
    (csvStepNew ne s c).existingScores = s.existingScores := by
  cases h : ne.get c <;> simp [csvStepNew, h]

lemma csvStepNew_diffCols (ne : EvaluationData) (s : CsvLoopState)
    (c : Criterion) :
    (csvStepNew ne s c).diffCols = s.diffCols := by
  cases h : ne.get c <;> simp [csvStepNew, h]

lemma csvStepNew_lastNew_of_some (ne : EvaluationData) (s : CsvLoopState)
    (c : Criterion) (r : CriterionResult) (h : ne.get c = some r) :
    (csvStepNew ne s c).lastNewScore = some r.score := by
  simp [csvStepNew, h]

lemma csvStepExisting_ok (ee : EvaluationData) (s : CsvLoopState)
    (c : Criterion) (s' : CsvLoopState)
    (h : csvStepExisting ee s c = .ok s') :
    s'.newScores = s.newScores ∧
    s'.existingScores = s.existingScores ++ existingContribution ee c ∧
    (∀ p ∈ s'.diffCols, p ∈ s.diffCols ∨ p.1 = c) ∧
    ((∃ r, ee.get c = some r ∧ r.score = 0) → s'.diffCols = s.diffCols) ∧
    (s.lastNewScore = some 0 → s'.diffCols = s.diffCols) := by
  cases hee : ee.get c with
  | none =>
      simp only [csvStepExisting, hee, Except.ok.injEq] at h
      subst h
      exact ⟨rfl, by simp [existingContribution, hee],
        fun p hp => Or.inl hp, fun _ => rfl, fun _ => rfl⟩
  | some r =>
      simp only [csvStepExisting, hee] at h
      cases hl : s.lastNewScore with
      | none => simp [hl] at h
      | some n =>
          simp only [hl, Except.ok.injEq] at h
          subst h
          by_cases hcond : n ≠ 0 ∧ r.score ≠ 0
          · rw [if_pos hcond]
            refine ⟨rfl, by simp [existingContribution, hee, hcond.2], ?_, ?_, ?_⟩
            · intro p hp
              simp only [List.mem_append, List.mem_singleton] at hp
              rcases hp with hp | hp
              · exact Or.inl hp
              · exact Or.inr (by simp [hp])
            · rintro ⟨r', hr', hr0⟩
              cases hr'
              exact absurd hr0 hcond.2
            · intro h0
              injection h0 with h0'
              subst h0'
              exact absurd rfl hcond.1
          · rw [if_neg hcond]
            refine ⟨rfl, ?_, ?_, fun _ => rfl, fun _ => rfl⟩
            · simp only [existingContribution, hee]
            · intro p hp
              exact Or.inl hp

lemma csvStep_ok (ne ee : EvaluationData) (s : CsvLoopState) (c : Criterion)
    (s' : CsvLoopState) (h : csvStep ne ee s c = .ok s') :
    s'.newScores = s.newScores ++ newContribution ne c ∧
    s'.existingScores = s.existingScores ++ existingContribution ee c ∧
    (∀ p ∈ s'.diffCols, p ∈ s.diffCols ∨ p.1 = c) ∧
    (((∃ r, ne.get c = some r ∧ r.score = 0) ∨
      (∃ r, ee.get c = some r ∧ r.score = 0)) →
      s'.diffCols = s.diffCols) := by
  obtain ⟨h1, h2, h3, h4, h5⟩ := csvStepExisting_ok ee (csvStepNew ne s c) c s' h
  refine ⟨by rw [h1, csvStepNew_newScores],
          by rw [h2, csvStepNew_existingScores],
          fun p hp => by
            rcases h3 p hp with hp' | hp'
            · rw [csvStepNew_diffCols] at hp'
              exact Or.inl hp'
            · exact Or.inr hp', ?_⟩
  rintro (⟨r, hr, hr0⟩ | hz)
  · rw [h5 (by rw [csvStepNew_lastNew_of_some ne s c r hr, hr0]),
      csvStepNew_diffCols]
  · rw [h4 hz, csvStepNew_diffCols]

lemma csvLoop_ok_scores (ne ee : EvaluationData) :
    ∀ (fs : List Criterion) (s₀ s : CsvLoopState),
    csvLoop ne ee fs s₀ = .ok s →
    s.newScores = s₀.newScores ++ (fs.map (newContribution ne)).flatten ∧
    s.existingScores =
      s₀.existingScores ++ (fs.map (existingContribution ee)).flatten := by
  intro fs
  induction fs with
  | nil =>
      intro s₀ s h
      simp only [csvLoop, Except.ok.injEq] at h
      subst h
      simp
  | cons c cs ih =>
      intro s₀ s h
      simp only [csvLoop] at h
      cases hstep : csvStep ne ee s₀ c with
      | error e => rw [hstep] at h; cases h
      | ok s1 =>
          rw [hstep] at h
          obtain ⟨h1, h2, -, -⟩ := csvStep_ok ne ee s₀ c s1 hstep
          obtain ⟨g1, g2⟩ := ih s1 s h
          rw [g1, h1, g2, h2]
          simp [List.append_assoc]

lemma csvLoop_diff_zero (ne ee : EvaluationData) (c : Criterion)
    (hz : (∃ r, ne.get c = some r ∧ r.score = 0) ∨
          (∃ r, ee.get c = some r ∧ r.score = 0)) :
    ∀ (fs : List Criterion) (s₀ s : CsvLoopState),
    csvLoop ne ee fs s₀ = .ok s →
    (∀ δ : Int, (c, δ) ∉ s₀.diffCols) → ∀ δ : Int, (c, δ) ∉ s.diffCols := by
  intro fs
  induction fs with
  | nil =>
      intro s₀ s h h0
      simp only [csvLoop, Except.ok.injEq] at h
      subst h
      exact h0
  | cons c' cs ih =>
      intro s₀ s h h0
      simp only [csvLoop] at h
      cases hstep : csvStep ne ee s₀ c' with
      | error e => rw [hstep] at h; cases h
      | ok s1 =>
          rw [hstep] at h
          obtain ⟨-, -, h3, h4⟩ := csvStep_ok ne ee s₀ c' s1 hstep
          refine ih s1 s h ?_
          by_cases hcc : c' = c
          · subst hcc
            rw [h4 hz]
            exact h0
          · intro δ hδ
            rcases h3 (c, δ) hδ with hin | hfst
            · exact h0 δ hin
            · exact hcc hfst.symm

lemma newContribution_ne_zero (ne : EvaluationData) (c : Criterion) :
    ∀ x ∈ newContribution ne c, x ≠ 0 := by
  intro x hx
  cases h : ne.get c with
  | none => simp [newContribution, h] at hx
  | some r =>
      by_cases h0 : r.score = 0
      · simp [newContribution, h, h0] at hx
      · simp [newContribution, h, h0] at hx
        subst hx
        exact h0

lemma existingContribution_ne_zero (ee : EvaluationData) (c : Criterion) :
    ∀ x ∈ existingContribution ee c, x ≠ 0 := by
  intro x hx
  cases h : ee.get c with
  | none => simp [existingContribution, h] at hx
  | some r =>
      by_cases h0 : r.score = 0
      · simp [existingContribution, h, h0] at hx
      · simp [existingContribution, h, h0] at hx
        subst hx
        exact h0

lemma newContribution_eq_optScores (ne : EvaluationData) (c : Criterion)
    (hpos : ∀ r, ne.get c = some r → 0 < r.score) :
    newContribution ne c = optScores (ne.get c) := by
  cases h : ne.get c with
  | none => simp [newContribution, optScores, h]
  | some r =>
      have : r.score ≠ 0 := by
        have := hpos r h
        omega
      simp [newContribution, optScores, h, this]

end Ruggles

namespace Ruggles

/-- C3: in tab 1 the average raw score is the exact rational mean of the
collected scores (multiplying back by the length recovers the sum — no
integer division) and the average curved score is the curve applied to
that mean; in `save_to_csv`, whenever the collected new scores are
non-empty and every present new score is positive (the valid range), the
collected list is exactly the present scores and the exported average
columns are the exact mean and the row's average curve applied to that
mean; and the curve of the mean differs from the mean of the per-criterion
curved scores (at scores `[16, 16, 4, 4]` the former is `4`, the latter
`5`), while the exact mean of `[11, 12]` is `23/2`, not the integer
quotient. -/
theorem C3_average_is_curve_of_mean :
    (∀ (st : String) (d : EvaluationData),
      tab1AvgScore st d * ((tab1Scores st d).length : ℚ) =
        ((tab1Scores st d).map (fun i => (i : ℚ))).sum ∧
      tab1CurvedAvg st d = adjust_score_on_curve (tab1AvgScore st d)) ∧
    (∀ (selfSt rowSt : String) (ne ee : EvaluationData) (agg : CsvRowAgg),
      processRow selfSt rowSt ne ee = .ok agg →
      (∀ c r, ne.get c = some r → 0 < r.score) →
      agg.loopState.newScores ≠ [] →
      agg.loopState.newScores =
        presentScores ne (csvCriteriaFields selfSt rowSt) ∧
      agg.newAvgRaw = some (intListMean agg.loopState.newScores) ∧
      agg.newAvgCurved =
        some (csvAvgCurve (intListMean agg.loopState.newScores))) ∧
    (adjust_score_on_curve (intListMean [16, 16, 4, 4]) = 4 ∧
     meanOfCurved [16, 16, 4, 4] = 5 ∧
     intListMean [11, 12] = 23 / 2) := by
  refine ⟨?_, ?_, ?_⟩
  · intro st d
    have hlen : (tab1Scores st d).length ≠ 0 := by
      by_cases hst : st = "full realism" <;> simp [tab1Scores, hst]
    exact ⟨div_mul_cancel₀ _ (Nat.cast_ne_zero.mpr hlen), rfl⟩
  · intro selfSt rowSt ne ee agg h hpos hne
    simp only [processRow] at h
    cases hloop : csvLoop ne ee (csvCriteriaFields selfSt rowSt) initCsvState with
    | error e => rw [hloop] at h; cases h
    | ok s =>
        rw [hloop] at h
        obtain rfl := Except.ok.inj h
        simp only at hne ⊢
        have hempty : s.newScores.isEmpty = false := by
          cases hh : s.newScores with
          | nil => exact absurd hh hne
          | cons a l => rfl
        obtain ⟨hnew, -⟩ := csvLoop_ok_scores ne ee _ initCsvState s hloop
        have hfun : newContribution ne = fun c => optScores (ne.get c) :=
          funext fun c =>
            newContribution_eq_optScores ne c (fun r hr => hpos c r hr)
        refine ⟨?_, by simp [hempty], by simp [hempty]⟩
        rw [hnew, hfun]
        simp [presentScores, initCsvState]
  · refine ⟨?_, ?_, ?_⟩ <;>
      norm_num [intListMean, adjust_score_on_curve, meanOfCurved]

/-- A conformant quick-sketch evaluator response with scores
`14, 16, 12, 18`. -/
def ne3 : EvaluationData :=
  { EvaluationData.empty with
    proportion_and_structure := some ⟨14, "", []⟩
    line_quality := some ⟨16, "", []⟩
    form_and_volume := some ⟨12, "", []⟩
    mood_and_expression := some ⟨18, "", []⟩ }

/-- The row aggregate produced for `ne3` against an empty existing
evaluation in quick sketch mode. -/
def csvAgg3 : CsvRowAgg :=
  { loopState :=
      ⟨some 18, [14, 16, 12, 18], [],
       [(.proportion_and_structure, 14), (.line_quality, 16),
        (.form_and_volume, 12), (.mood_and_expression, 18)], [], []⟩
    existingAvgRaw := none
    existingAvgCurved := none
    newAvgRaw := some 15
    newAvgCurved := some 7
    avgScoreDiff := none
    avgCurvedDiff := none }

/-- C3 witness: the `save_to_csv` part applied to a concrete quick-sketch
row with new scores `14, 16, 12, 18` (mean `15`, csv-curved `7`). -/
theorem C3_average_witness :
    csvAgg3.loopState.newScores =
      presentScores ne3 (csvCriteriaFields "quick sketch" "quick sketch") ∧
    csvAgg3.newAvgRaw = some (intListMean csvAgg3.loopState.newScores) ∧
    csvAgg3.newAvgCurved =
      some (csvAvgCurve (intListMean csvAgg3.loopState.newScores)) :=
  C3_average_is_curve_of_mean.2.1 "quick sketch" "quick sketch" ne3
    EvaluationData.empty csvAgg3
    (by
      simp [processRow, csvLoop, csvStep, csvStepNew, csvStepExisting,
        csvCriteriaFields, initCsvState, ne3, EvaluationData.empty,
        EvaluationData.get, csvAgg3, intListMean, csvAvgCurve]
      norm_num)
    (by
      intro c r h
      cases c <;> simp [ne3, EvaluationData.empty, EvaluationData.get] at h <;>
        (subst h; decide))
    (by decide)

end Ruggles

namespace Ruggles

/-- The claimed scenario's new evaluation: `{proportion: 14, line_quality: 16}`. -/
def neScen : EvaluationData :=
  { EvaluationData.empty with
    proportion_and_structure := some ⟨14, "", []⟩
    line_quality := some ⟨16, "", []⟩ }

/-- The claimed scenario's existing evaluation:
`{proportion: 10, line_quality: 12}`. -/
def eeScen : EvaluationData :=
  { EvaluationData.empty with
    proportion_and_structure := some ⟨10, "", []⟩
    line_quality := some ⟨12, "", []⟩ }

/-- The row aggregate of the claimed scenario. -/
def csvAggScen : CsvRowAgg :=
  { loopState :=
      ⟨some 16, [14, 16], [10, 12],
       [(.proportion_and_structure, 14), (.line_quality, 16)],
       [(.proportion_and_structure, 10), (.line_quality, 12)],
       [(.proportion_and_structure, 4), (.line_quality, 4)]⟩
    existingAvgRaw := some 11
    existingAvgCurved := some 3
    newAvgRaw := some 15
    newAvgCurved := some 7
    avgScoreDiff := some 4
    avgCurvedDiff := some 4 }

/-- A quick-sketch evaluator response (four criteria, `mood_and_expression`
scored `8`) for a row whose stored sketch type is full realism. -/
def ne5 : EvaluationData :=
  { EvaluationData.empty with
    proportion_and_structure := some ⟨14, "", []⟩
    line_quality := some ⟨16, "", []⟩
    form_and_volume := some ⟨12, "", []⟩
    mood_and_expression := some ⟨8, "", []⟩ }

/-- A stored full-realism evaluation carrying only `value_and_light`
(score `5`). -/
def ee5 : EvaluationData :=
  { EvaluationData.empty with
    value_and_light := some ⟨5, "", []⟩ }

/-- The row aggregate produced for `ne5` against `ee5`: the loop emits
`value_and_light_score_diff = 3`, computed from the stale
`mood_and_expression` new score `8`, although `value_and_light` is absent
from the new evaluation. -/
def csvAgg5 : CsvRowAgg :=
  { loopState :=
      ⟨some 8, [14, 16, 12, 8], [5],
       [(.proportion_and_structure, 14), (.line_quality, 16),
        (.form_and_volume, 12), (.mood_and_expression, 8)],
       [(.value_and_light, 5)],
       [(.value_and_light, 3)]⟩
    existingAvgRaw := some 5
    existingAvgCurved := some 0
    newAvgRaw := some (25 / 2)
    newAvgCurved := some (9 / 2)
    avgScoreDiff := some (15 / 2)
    avgCurvedDiff := some (9 / 2) }

/-- C5: the claim's concrete scenario holds (diffs `4, 4` and average diff
`4`, all equal to new minus existing), but the general rule "a diff is
emitted only when both sides have the criterion present" is violated by
the code: because the Python local `new_score` is reused across loop
iterations, a row whose existing evaluation has `value_and_light` while
the new evaluation does not still gets a `value_and_light_score_diff`,
computed from the previous criterion's new score. -/
theorem C5_diff_stale_new_score :
    processRow "quick sketch" "quick sketch" neScen eeScen =
      .ok csvAggScen ∧
    csvAggScen.loopState.diffCols =
      [(.proportion_and_structure, 4), (.line_quality, 4)] ∧
    csvAggScen.avgScoreDiff = some 4 ∧
    ne5.get .value_and_light = none ∧
    processRow "quick sketch" "full realism" ne5 ee5 = .ok csvAgg5 ∧
    (Criterion.value_and_light, 3) ∈ csvAgg5.loopState.diffCols := by
  refine ⟨?_, rfl, rfl, rfl, ?_, by decide⟩
  · simp [processRow, csvLoop, csvStep, csvStepNew, csvStepExisting,
      csvCriteriaFields, initCsvState, neScen, eeScen, EvaluationData.empty,
      EvaluationData.get, csvAggScen, intListMean, csvAvgCurve]
    norm_num
  · simp [processRow, csvLoop, csvStep, csvStepNew, csvStepExisting,
      csvCriteriaFields, initCsvState, ne5, ee5, EvaluationData.empty,
      EvaluationData.get, csvAgg5, intListMean, csvAvgCurve]
    norm_num

end Ruggles

namespace Ruggles

/-- The default of the batch script's `--limit` CLI argument
(src/evaluate_images.py line 760). -/
def defaultLimit : Int := 5

/-- The truncation performed by `evaluate_all_images`
(src/evaluate_images.py lines 543-548): slice to the first `limit`
artworks only when the limit is positive and the list is longer. -/
def limitArtworks {α : Type} (limit : Int) (artworks : List α) : List α :=
  if limit > 0 ∧ (artworks.length : Int) > limit
  then artworks.take limit.toNat
  else artworks

/-- The evaluation loop of `evaluate_all_images`: every artwork of the
truncated list is evaluated, and only the successful evaluations are
collected. -/
def evaluateAllImages {α β : Type} (limit : Int) (evalOne : α → Option β)
    (artworks : List α) : List (α × β) :=
  (limitArtworks limit artworks).filterMap
    fun a => (evalOne a).map fun b => (a, b)

/-- C6: with `--limit 0` every returned artwork is processed (likewise for
any non-positive limit); with a positive limit `L` at most `L` artworks
are processed; with the default limit at most `5` are. -/
theorem C6_limit_semantics :
    (∀ (α : Type) (artworks : List α), limitArtworks 0 artworks = artworks) ∧
    (∀ (α : Type) (L : Int) (artworks : List α), L ≤ 0 →
      limitArtworks L artworks = artworks) ∧
    (∀ (α : Type) (L : Int) (artworks : List α), 0 < L →
      ((limitArtworks L artworks).length : Int) ≤ L) ∧
    (∀ (α : Type) (artworks : List α),
      ((limitArtworks defaultLimit artworks).length : Int) ≤ 5) := by
  have h3 : ∀ (α : Type) (L : Int) (artworks : List α), 0 < L →
      ((limitArtworks L artworks).length : Int) ≤ L := by
    intro α L artworks hL
    unfold limitArtworks
    split_ifs with h
    · simp only [List.length_take]
      push_cast
      omega
    · push_neg at h
      have := h hL
      omega
  refine ⟨?_, ?_, h3, ?_⟩
  · intro α artworks
    unfold limitArtworks
    rw [if_neg]
    rintro ⟨h1, -⟩
    omega
  · intro α L artworks hL
    unfold limitArtworks
    rw [if_neg]
    rintro ⟨h1, -⟩
    omega
  · intro α artworks
    exact h3 α defaultLimit artworks (by norm_num [defaultLimit])

/-- C6 witness: a negative limit keeps all three artworks; limit `2` keeps
at most two. -/
theorem C6_limit_witness :
    limitArtworks (-1) [1, 2, 3] = [1, 2, 3] ∧
    ((limitArtworks 2 [1, 2, 3]).length : Int) ≤ 2 :=
  ⟨C6_limit_semantics.2.1 Nat (-1) [1, 2, 3] (by norm_num),
   C6_limit_semantics.2.2.1 Nat 2 [1, 2, 3] (by norm_num)⟩

end Ruggles

namespace Ruggles

/-- The result of one attempted CSV write. -/
inductive WriteResult where
  | ok
  | permError
  | otherError
deriving DecidableEq, Repr

/-- The possible ends of `save_to_csv`'s write sequence: saved at one of
the three paths, or a failure that is only logged. The function returning
a `SaveOutcome` (rather than `Except`) models that no exception escapes. -/
inductive SaveOutcome where
  | savedOriginal
  | savedTimestamped
  | savedHome
  | loggedNoFallback
  | loggedFinalFailure
deriving DecidableEq, Repr

/-- The cascading write chain of `save_to_csv` (src/evaluate_images.py
lines 711-739): try the configured path; on `PermissionError` retry with a
timestamp-suffixed filename; on any failure of that retry fall back to a
file in the home directory; log and return on every failure. A
non-permission failure at the first path is only logged, with no
fallback. -/
def saveCsvCascade (orig ts home : WriteResult) : SaveOutcome :=
  match orig with
  | .ok => .savedOriginal
  | .otherError => .loggedNoFallback
  | .permError =>
      match ts with
      | .ok => .savedTimestamped
      | _ =>
          match home with
          | .ok => .savedHome
          | _ => .loggedFinalFailure

/-- C7: a permission failure at the configured output path makes
`save_to_csv` write the timestamp-suffixed file; if that write fails too it
writes to the home directory; and when every write fails the chain still
returns normally with the failure only logged (the outcome type has no
exception case). -/
theorem C7_csv_fallback_chain :
    (∀ home, saveCsvCascade .permError .ok home = .savedTimestamped) ∧
    (∀ e, e ≠ .ok → saveCsvCascade .permError e .ok = .savedHome) ∧
    (∀ e e2, e ≠ .ok → e2 ≠ .ok →
      saveCsvCascade .permError e e2 = .loggedFinalFailure) := by
  refine ⟨fun home => rfl, ?_, ?_⟩
  · intro e he
    cases e with
    | ok => exact absurd rfl he
    | permError => rfl
    | otherError => rfl
  · intro e e2 he he2
    cases e with
    | ok => exact absurd rfl he
    | permError => cases e2 with
      | ok => exact absurd rfl he2
      | permError => rfl
      | otherError => rfl
    | otherError => cases e2 with
      | ok => exact absurd rfl he2
      | permError => rfl
      | otherError => rfl

/-- C7 witness: the chain applied at concrete outcomes of the three
writes. -/
theorem C7_csv_fallback_witness :
    saveCsvCascade .permError .ok .otherError = .savedTimestamped ∧
    saveCsvCascade .permError .permError .ok = .savedHome ∧
    saveCsvCascade .permError .otherError .permError = .loggedFinalFailure :=
  ⟨C7_csv_fallback_chain.1 .otherError,
   C7_csv_fallback_chain.2.1 .permError (by decide),
   C7_csv_fallback_chain.2.2 .otherError .permError (by decide) (by decide)⟩

end Ruggles

namespace Ruggles

/-- C8: when the collected scores list is empty, no average field is
produced anywhere — tab 2 skips the average under `if scores:`, and
`save_to_csv` emits none of the average/diff columns whose side has no
scores — so no division on an empty list is ever performed. -/
theorem C8_empty_scores_skip_average :
    (∀ (st : String) (d : EvaluationData), tab2Scores st d = [] →
      tab2AvgScore st d = none ∧ tab2CurvedAvg st d = none) ∧
    (∀ (selfSt rowSt : String) (ne ee : EvaluationData) (agg : CsvRowAgg),
      processRow selfSt rowSt ne ee = .ok agg →
      (agg.loopState.newScores = [] →
        agg.newAvgRaw = none ∧ agg.newAvgCurved = none ∧
        agg.avgScoreDiff = none ∧ agg.avgCurvedDiff = none) ∧
      (agg.loopState.existingScores = [] →
        agg.existingAvgRaw = none ∧ agg.existingAvgCurved = none ∧
        agg.avgScoreDiff = none ∧ agg.avgCurvedDiff = none)) := by
  constructor
  · intro st d h
    constructor
    · rw [tab2AvgScore, h]
      rfl
    · rw [tab2CurvedAvg, tab2AvgScore, h]
      rfl
  · intro selfSt rowSt ne ee agg h
    simp only [processRow] at h
    cases hloop : csvLoop ne ee (csvCriteriaFields selfSt rowSt) initCsvState with
    | error e => rw [hloop] at h; cases h
    | ok s =>
        rw [hloop] at h
        obtain rfl := Except.ok.inj h
        constructor
        · intro hn
          simp only at hn
          simp [hn]
        · intro hn
          simp only at hn
          simp [hn]

/-- The row aggregate of a row whose new and existing evaluations are both
empty: no scores, no averages. -/
def csvAggEmpty : CsvRowAgg :=
  ⟨initCsvState, none, none, none, none, none, none⟩

/-- C8 witness: the theorem applied to the empty tab-2 evaluation and to a
concrete CSV row whose new and existing evaluations are both empty. -/
theorem C8_empty_scores_witness :
    (tab2AvgScore "quick sketch" EvaluationData.empty = none ∧
     tab2CurvedAvg "quick sketch" EvaluationData.empty = none) ∧
    (csvAggEmpty.newAvgRaw = none ∧ csvAggEmpty.newAvgCurved = none ∧
      csvAggEmpty.avgScoreDiff = none ∧ csvAggEmpty.avgCurvedDiff = none) :=
  ⟨C8_empty_scores_skip_average.1 "quick sketch" EvaluationData.empty rfl,
   (C8_empty_scores_skip_average.2 "quick sketch" "quick sketch"
       EvaluationData.empty EvaluationData.empty csvAggEmpty rfl).1 rfl⟩

end Ruggles

namespace Ruggles

/-- A legacy row with no evaluation columns at all. -/
def legacyRow : WideRow :=
  ⟨"full realism", none, none, none, none, none, none, none, none⟩

/-- C10: in `save_to_csv` a criterion score equal to `0` is treated as
absent — the value `0` never enters the `new_scores` or `existing_scores`
lists feeding the averages, and a criterion whose new or existing score is
`0` never gets a `{criteria}_score_diff` column — because presence is
tested by truthiness; and un-flattening a legacy row with no score columns
indeed defaults the unconditionally reconstructed criteria to score `0`. -/
theorem C10_zero_score_treated_as_absent :
    (∀ (selfSt rowSt : String) (ne ee : EvaluationData) (agg : CsvRowAgg),
      processRow selfSt rowSt ne ee = .ok agg →
      ((0 : Int) ∉ agg.loopState.newScores ∧
       (0 : Int) ∉ agg.loopState.existingScores) ∧
      (∀ c r, ne.get c = some r → r.score = 0 →
        ∀ δ : Int, (c, δ) ∉ agg.loopState.diffCols) ∧
      (∀ c r, ee.get c = some r → r.score = 0 →
        ∀ δ : Int, (c, δ) ∉ agg.loopState.diffCols)) ∧
    (unflattenRow legacyRow).evaluation_data.proportion_and_structure =
      some zeroResult ∧
    (unflattenRow legacyRow).evaluation_data.line_quality =
      some zeroResult := by
  refine ⟨?_, rfl, rfl⟩
  intro selfSt rowSt ne ee agg h
  simp only [processRow] at h
  cases hloop : csvLoop ne ee (csvCriteriaFields selfSt rowSt) initCsvState with
  | error e => rw [hloop] at h; cases h
  | ok s =>
      rw [hloop] at h
      obtain rfl := Except.ok.inj h
      simp only
      obtain ⟨hnew, hex⟩ := csvLoop_ok_scores ne ee _ initCsvState s hloop
      refine ⟨⟨?_, ?_⟩, ?_, ?_⟩
      · rw [hnew]
        simp only [initCsvState, List.nil_append, List.mem_flatten,
          List.mem_map]
        rintro ⟨l, ⟨c, -, rfl⟩, hl⟩
        exact newContribution_ne_zero ne c 0 hl rfl
      · rw [hex]
        simp only [initCsvState, List.nil_append, List.mem_flatten,
          List.mem_map]
        rintro ⟨l, ⟨c, -, rfl⟩, hl⟩
        exact existingContribution_ne_zero ee c 0 hl rfl
      · intro c r hr h0
        exact csvLoop_diff_zero ne ee c (Or.inl ⟨r, hr, h0⟩) _ initCsvState s
          hloop (by simp [initCsvState])
      · intro c r hr h0
        exact csvLoop_diff_zero ne ee c (Or.inr ⟨r, hr, h0⟩) _ initCsvState s
          hloop (by simp [initCsvState])

/-- New evaluation with `line_quality` scored `0`. -/
def ne0 : EvaluationData :=
  { EvaluationData.empty with
    proportion_and_structure := some ⟨14, "", []⟩
    line_quality := some ⟨0, "", []⟩ }

/-- Existing evaluation with `line_quality` scored `0`. -/
def ee0 : EvaluationData :=
  { EvaluationData.empty with
    proportion_and_structure := some ⟨10, "", []⟩
    line_quality := some ⟨0, "", []⟩ }

/-- The row aggregate produced for `ne0` against `ee0`: the zero
`line_quality` scores are excluded from both averages and produce no diff
column. -/
def csvAgg10 : CsvRowAgg :=
  { loopState :=
      ⟨some 0, [14], [10],
       [(.proportion_and_structure, 14), (.line_quality, 0)],
       [(.proportion_and_structure, 10), (.line_quality, 0)],
       [(.proportion_and_structure, 4)]⟩
    existingAvgRaw := some 10
    existingAvgCurved := some 2
    newAvgRaw := some 14
    newAvgCurved := some 6
    avgScoreDiff := some 4
    avgCurvedDiff := some 4 }

/-- C10 witness: the theorem applied to a concrete row whose `line_quality`
scores are `0` on both sides. -/
theorem C10_zero_score_witness :
    ((0 : Int) ∉ csvAgg10.loopState.newScores ∧
     (0 : Int) ∉ csvAgg10.loopState.existingScores) ∧
    (Criterion.line_quality, (7 : Int)) ∉ csvAgg10.loopState.diffCols :=
  have hrun : processRow "quick sketch" "quick sketch" ne0 ee0 =
      .ok csvAgg10 := by
    simp [processRow, csvLoop, csvStep, csvStepNew, csvStepExisting,
      csvCriteriaFields, initCsvState, ne0, ee0, EvaluationData.empty,
      EvaluationData.get, csvAgg10, intListMean, csvAvgCurve]
    norm_num
  ⟨(C10_zero_score_treated_as_absent.1 "quick sketch" "quick sketch"
      ne0 ee0 csvAgg10 hrun).1,
   (C10_zero_score_treated_as_absent.1 "quick sketch" "quick sketch"
      ne0 ee0 csvAgg10 hrun).2.1 .line_quality ⟨0, "", []⟩ rfl rfl 7⟩

end Ruggles
